import Mathlib

/-!
Verification development for the marketplace-monitoring-service.

Shallow embedding of `src/main.rs` (block-watermark poller and the per-job
verification worker spawned for each in-scope JobOpened event) and
`src/models.rs` (failure-record constructors). External collaborators that
live outside the core (the chain RPC client, the HTTP client in
`reachability.rs`, serde parsing, the diesel connection pool) enter the
embedding as explicit result oracles on the inputs, exactly where `main.rs`
pattern-matches on their `Result`s.
-/

deriving instance DecidableEq for Except

/-- Structured metadata, the parse target of `serde_json::from_str` in
`main.rs` (struct `Metadata` of `types.rs`; its three fields are pinned by
their uses in `main.rs`: `metadata.url`, `metadata.instance`,
`metadata.region`, all `Option<String>`). -/
structure Metadata where
  url : Option String
  instance_ : Option String
  region : Option String
deriving DecidableEq, Repr

/-- The fixed allow-list of image URLs from `main.rs` lines 121-124. -/
def allowed_urls : List String :=
  ["https://artifacts.marlin.org/oyster/eifs/base-blue_v3.0.0_linux_amd64.eif",
   "https://artifacts.marlin.org/oyster/eifs/base-blue_v3.0.0_linux_arm64.eif"]

/-- Lowercase hex digit, as produced by `hex::encode`. -/
def hexDigit (n : Nat) : Char :=
  if n < 10 then Char.ofNat (48 + n) else Char.ofNat (87 + n)

/-- One byte as two lowercase hex characters. -/
def hexByte (b : Nat) : String :=
  String.mk [hexDigit (b / 16 % 16), hexDigit (b % 16)]

/-- `hex::encode` over a byte sequence. -/
def hexEncode (bs : List Nat) : String :=
  String.join (bs.map hexByte)

/-- One decoded `JobOpened` event together with the results of the two
external calls `main.rs` makes while handling it: the
`contract.providers(operator)` RPC lookup (lines 100-106) and the
`serde_json::from_str` parse of the metadata string (lines 108-117).
`owner` and `operator` are the textual (Debug-format) renderings of the
addresses, which is all `main.rs` ever uses. -/
structure EventInput where
  jobBytes : List Nat
  owner : String
  operator : String
  providersResult : Except String String
  metadataParse : Except String Metadata
deriving DecidableEq, Repr

/-- The data moved into the spawned worker task for one in-scope event
(`main.rs` lines 139-148). -/
structure VTask where
  job : String
  owner : String
  operator : String
  cpUrl : String
  metadata : Metadata
deriving DecidableEq, Repr

/-- Per-event handling inside the poller loop, `main.rs` lines 94-137:
`providers` RPC failure skips the event; metadata parse failure skips the
event; a missing `url` or a `url` outside `allowed_urls` skips the event;
otherwise a worker task is spawned. Returns the spawned task, or `none`
when the event is skipped by a `continue`. -/
def processEvent (e : EventInput) : Option VTask :=
  match e.providersResult with
  | .error _ => none
  | .ok cpUrl =>
    match e.metadataParse with
    | .error _ => none
    | .ok metadata =>
      match metadata.url with
      | some url =>
        if allowed_urls.contains url then
          some ⟨"0x" ++ hexEncode e.jobBytes, e.owner, e.operator, cpUrl, metadata⟩
        else none
      | none => none

/-- Inputs of one poller tick: the `provider.get_block_number()` result
(`main.rs` lines 53-59) and the `JobOpened` range query result
(lines 73-85), the latter only consulted when the head exceeds the
watermark. -/
structure TickInput where
  headResult : Except String Nat
  eventsResult : Except String (List EventInput)
deriving Repr

/-- Observable outcome of one tick: the watermark (`last_checked_block`)
after the tick, the inclusive block range queried (if any), and the worker
tasks dispatched via `tokio::spawn`. -/
structure TickOutput where
  watermark : Nat
  queried : Option (Nat × Nat)
  dispatched : List VTask
deriving Repr

/-- One iteration of the poller loop, `main.rs` lines 50-290. A failed head
query `continue`s; `head <= watermark` `continue`s; a failed event query
`continue`s; otherwise the range `[watermark+1, head]` is queried, each
event is processed (possibly dispatching a worker), and finally
`last_checked_block = current_block`. -/
def pollerTick (w : Nat) (t : TickInput) : TickOutput :=
  match t.headResult with
  | .error _ => ⟨w, none, []⟩
  | .ok head =>
    if head ≤ w then ⟨w, none, []⟩
    else
      match t.eventsResult with
      | .error _ => ⟨w, none, []⟩
      | .ok events => ⟨head, some (w + 1, head), events.filterMap processEvent⟩

/-- The sequence of tick outcomes from initial watermark `w` over a list of
tick inputs, threading the watermark. -/
def pollerTrace (w : Nat) : List TickInput → List TickOutput
  | [] => []
  | t :: ts => pollerTick w t :: pollerTrace (pollerTick w t).watermark ts

/-- The watermark after all ticks have run. -/
def finalWatermark (w : Nat) : List TickInput → Nat
  | [] => w
  | t :: ts => finalWatermark (pollerTick w t).watermark ts

/-- All block ranges queried across a run. -/
def queriedRanges (w : Nat) : List TickInput → List (Nat × Nat)
  | [] => []
  | t :: ts =>
    (match (pollerTick w t).queried with
     | some r => [r]
     | none => []) ++ queriedRanges (pollerTick w t).watermark ts

/-- The head observed at a tick, with a default for the (never taken under
success hypotheses) error case. -/
def headD (t : TickInput) (d : Nat) : Nat :=
  match t.headResult with
  | .ok h => h
  | .error _ => d

/-- A run in which every RPC call succeeds and the observed chain head is
non-decreasing. The initial watermark is itself the head observed at
startup (`main.rs` line 44), so non-decreasing observation starts from it. -/
inductive ChainOk : Nat → List TickInput → Prop
  | nil (w : Nat) : ChainOk w []
  | cons (w h : Nat) (t : TickInput) (ts : List TickInput) (evs : List EventInput)
      (hh : t.headResult = .ok h) (hw : w ≤ h) (he : t.eventsResult = .ok evs)
      (rest : ChainOk h ts) : ChainOk w (t :: ts)

/-- At every tick of the run, the watermark after the tick equals the head
observed at that tick. -/
def WatermarksMatchHeads (w : Nat) : List TickInput → Prop
  | [] => True
  | t :: ts =>
    (pollerTick w t).watermark = headD t 0 ∧
      WatermarksMatchHeads (pollerTick w t).watermark ts

/-- At every tick: a range is queried exactly when the head strictly
exceeds the current watermark, and then it is `[watermark+1, head]`. -/
def RangesAreConsecutive (w : Nat) : List TickInput → Prop
  | [] => True
  | t :: ts =>
    ((pollerTick w t).queried =
      if headD t 0 ≤ w then none else some (w + 1, headD t 0)) ∧
      RangesAreConsecutive (pollerTick w t).watermark ts

/-- Which of the two failure tables a record is inserted into:
`reachability_errors` (resolution / probe failures) or
`operator_endpoint_errors` (cross-check failures). -/
inductive FailureKind
  | reachability
  | endpoint
deriving DecidableEq, Repr

/-- A failure record as built by `NewReachabilityError::new` /
`NewOperatorEndpointError::new` in `models.rs`: both tables have the same
shape `{job, operator, ip, error, timestamp}`. -/
structure FailureRecord where
  kind : FailureKind
  job : String
  operator : String
  ip : String
  error : String
  timestamp : Int
deriving DecidableEq, Repr

/-- Outcome of one `pool_clone.get()` / `insert` pair at a write site:
whether the pool handed out a connection, and the insert's result when it
was attempted. -/
structure DbSlot where
  poolOk : Bool
  insertResult : Except String Unit
deriving DecidableEq, Repr

/-- Simplified JSON value mirroring `serde_json::Value` as far as `main.rs`
uses it. -/
inductive Json where
  | null
  | bool (b : Bool)
  | num (n : Int)
  | str (s : String)
  | arr (xs : List Json)
  | obj (fields : List (String × Json))

/-- `serde_json::Value::get(key)`: a lookup that succeeds only on objects
containing the key, regardless of the associated value. -/
def Json.get : Json → String → Option Json
  | .obj fields, key => (fields.find? (fun p => p.fst == key)).map Prod.snd
  | _, _ => none

/-- Outcome of the cross-check HTTP call in `main.rs` lines 213-284: the
`send()` failed, the body failed to parse as JSON, or a JSON value was
obtained. -/
inductive RefreshResult where
  | sendErr (e : String)
  | parseErr (e : String)
  | parsed (j : Json)

/-- Oracle inputs of one worker run: the `wait_for_ip_address` result, the
`check_reachability` verdict, the refresh-API outcome, the two potential
database write sites (first for the reachability stage, second for the
cross-check stage), and the epoch-seconds clock value the record
constructors observe. -/
structure WorkerInput where
  resolveResult : Except String String
  probeOk : Bool
  refresh : RefreshResult
  db1 : DbSlot
  db2 : DbSlot
  nowTs : Int

/-- Effects produced at one failure site: records actually persisted,
records for which an `insert` call was attempted, and error-level log
lines emitted. -/
structure WriteEffect where
  persisted : List FailureRecord
  attempts : List FailureRecord
  logs : List String
deriving DecidableEq, Repr

/-- A failure site, `main.rs` pattern
`error!(msg); if let Ok(conn) = pool.get() { if let Err(e) = rec.insert(conn) { error!(...) } }`:
the failure message is always logged; the insert is attempted only when the
pool yields a connection (a pool error is silently skipped); an insert
error is logged and swallowed. -/
def recordWrite (msg : String) (r : FailureRecord) (d : DbSlot) : WriteEffect :=
  { persisted := if d.poolOk then
      (match d.insertResult with
       | .ok _ => [r]
       | .error _ => []) else []
  , attempts := if d.poolOk then [r] else []
  , logs := msg :: (if d.poolOk then
      (match d.insertResult with
       | .ok _ => []
       | .error e => ["Failed to insert error into database: " ++ e]) else []) }

/-- A site where no failure occurred: nothing written, nothing logged. -/
def noWrite : WriteEffect := ⟨[], [], []⟩

/-- Observable outcome of one worker run: persisted records, attempted
inserts, error log lines, and whether the reachability probe and the
cross-check stages were reached. -/
structure WorkerOutput where
  persisted : List FailureRecord
  attempts : List FailureRecord
  logs : List String
  probed : Bool
  crossChecked : Bool
deriving DecidableEq, Repr

/-- The spawned verification worker, `main.rs` lines 139-285. On address
resolution failure: one reachability record with ip `"N/A"` and an early
`return` (probe and cross-check skipped). On resolution success: the probe
runs; a failed probe writes one reachability record with the resolved ip
and falls through; the cross-check always runs, and each of its three
failure shapes writes one endpoint record with the resolved ip. -/
def runWorker (t : VTask) (inp : WorkerInput) : WorkerOutput :=
  match inp.resolveResult with
  | .error e =>
    let msg := "Failed to get IP address: " ++ e
    let w := recordWrite msg ⟨.reachability, t.job, t.operator, "N/A", msg, inp.nowTs⟩ inp.db1
    ⟨w.persisted, w.attempts, w.logs, false, false⟩
  | .ok instanceIp =>
    let w1 :=
      if inp.probeOk then noWrite
      else recordWrite "Instance reachability test failed"
        ⟨.reachability, t.job, t.operator, instanceIp,
          "Instance reachability test failed", inp.nowTs⟩ inp.db1
    let w2 :=
      match inp.refresh with
      | .sendErr e =>
        recordWrite ("Failed to call refresh API: " ++ e)
          ⟨.endpoint, t.job, t.operator, instanceIp,
            "Failed to call refresh API: " ++ e, inp.nowTs⟩ inp.db2
      | .parseErr e =>
        recordWrite ("Failed to parse refresh API response: " ++ e)
          ⟨.endpoint, t.job, t.operator, instanceIp,
            "Failed to parse refresh API response: " ++ e, inp.nowTs⟩ inp.db2
      | .parsed j =>
        if (j.get "ip").isSome then noWrite
        else recordWrite "IP key NOT found in refresh API response"
          ⟨.endpoint, t.job, t.operator, instanceIp,
            "IP key NOT found in refresh API response", inp.nowTs⟩ inp.db2
    ⟨w1.persisted ++ w2.persisted, w1.attempts ++ w2.attempts,
      w1.logs ++ w2.logs, true, true⟩

/-- Records ever persisted on behalf of one event: none when the event is
not dispatched, otherwise the records of its (single) worker run. -/
def eventRecords (e : EventInput) (inp : WorkerInput) : List FailureRecord :=
  match processEvent e with
  | none => []
  | some t => (runWorker t inp).persisted

/-- The cross-check outcome branches of `main.rs` that write an endpoint
record: transport failure, parse failure, or missing `"ip"` key. -/
def crossCheckFails : RefreshResult → Bool
  | .sendErr _ => true
  | .parseErr _ => true
  | .parsed j => !(j.get "ip").isSome

/-- A worker input whose first database slot is replaced by a fully
successful one. -/
def setDb1Ok (inp : WorkerInput) : WorkerInput :=
  { inp with db1 := ⟨true, Except.ok ()⟩ }

/-- A worker input whose second database slot is replaced by a fully
successful one. -/
def setDb2Ok (inp : WorkerInput) : WorkerInput :=
  { inp with db2 := ⟨true, Except.ok ()⟩ }

/-- The `u64 -> i64` primitive cast (`as i64` in `models.rs`): wraps values
at and above `2^63`. -/
def u64ToI64 (n : Nat) : Int :=
  if n < 2 ^ 63 then (n : Int) else (n : Int) - 2 ^ 64

/-- `SystemTime::now().duration_since(UNIX_EPOCH)` for a clock reading of
`clockNs` nanoseconds relative to the epoch: `Ok` with the nonnegative
duration, `Err` (hence a panic under `.expect`) when the clock is before
the epoch. -/
def durationSinceEpochNs (clockNs : Int) : Option Nat :=
  if 0 ≤ clockNs then some clockNs.toNat else none

/-- The row shape shared by `NewReachabilityError` and
`NewOperatorEndpointError` in `models.rs`. -/
structure NewErrorRow where
  job : String
  operator : String
  ip : String
  error : String
  timestamp : Int
deriving DecidableEq, Repr

/-- `NewReachabilityError::new` (`models.rs` lines 26-41): timestamp is the
epoch duration's whole seconds (`as_secs`) cast `as i64`; `none` models the
panic when the clock is before the epoch. -/
def NewReachabilityError.new (job operator ip error : String) (clockNs : Int) :
    Option NewErrorRow :=
  (durationSinceEpochNs clockNs).map fun d =>
    ⟨job, operator, ip, error, u64ToI64 (d / 1000000000)⟩

/-- `NewOperatorEndpointError::new` (`models.rs` lines 71-85): identical
construction over the other table's row type. -/
def NewOperatorEndpointError.new (job operator ip error : String) (clockNs : Int) :
    Option NewErrorRow :=
  (durationSinceEpochNs clockNs).map fun d =>
    ⟨job, operator, ip, error, u64ToI64 (d / 1000000000)⟩

/-! ### Concrete inputs used by witnesses and counterexamples -/

/-- A sample in-scope task. -/
def taskEx : VTask :=
  ⟨"0xab", "owner0", "op0", "http://cp.example", ⟨some "u", none, none⟩⟩

/-- Worker input whose address resolution fails, with a healthy database. -/
def inpResolveFail : WorkerInput :=
  ⟨Except.error "timeout", true, RefreshResult.parsed Json.null,
    ⟨true, Except.ok ()⟩, ⟨true, Except.ok ()⟩, 100⟩

/-- Worker input whose address resolves but whose probe and cross-check
both fail, with a healthy database. -/
def inpProbeCCFail : WorkerInput :=
  ⟨Except.ok "3.4.5.6", false, RefreshResult.parsed (Json.obj []),
    ⟨true, Except.ok ()⟩, ⟨true, Except.ok ()⟩, 7⟩

/-- A refresh-API JSON response that has an `"ip"` key bound to `null`. -/
def jsonIpNull : Json := Json.obj [("ip", Json.null)]

/-- Worker input whose cross-check response carries an `"ip"` key with a
`null` value, different from the resolved address. -/
def inpCrossNullIp : WorkerInput :=
  ⟨Except.ok "3.4.5.6", true, RefreshResult.parsed jsonIpNull,
    ⟨true, Except.ok ()⟩, ⟨true, Except.ok ()⟩, 5⟩

/-- Worker input where both stages fail and both pool acquisitions fail. -/
def inpPoolFail : WorkerInput :=
  ⟨Except.ok "9.9.9.9", false, RefreshResult.sendErr "conn refused",
    ⟨false, Except.ok ()⟩, ⟨false, Except.ok ()⟩, 3⟩

/-- An event whose per-event `providers(operator)` RPC lookup fails; its
metadata is in scope. -/
def evProvFail : EventInput :=
  ⟨[171], "owner0", "op0", Except.error "rpc down",
    Except.ok ⟨some "https://artifacts.marlin.org/oyster/eifs/base-blue_v3.0.0_linux_amd64.eif",
      none, none⟩⟩

/-- A tick at head 10 whose only failure is the per-event provider lookup. -/
def tickProvFail : TickInput := ⟨Except.ok 10, Except.ok [evProvFail]⟩

/-- A tick whose head-height query fails. -/
def tickHeadErr : TickInput := ⟨Except.error "rpc down", Except.ok []⟩

/-- A clean tick at head 7 with no events. -/
def tickOkEmpty7 : TickInput := ⟨Except.ok 7, Except.ok []⟩

/-- A clean two-tick run: heads 12 then 15, no events. -/
def ticksEx : List TickInput :=
  [⟨Except.ok 12, Except.ok []⟩, ⟨Except.ok 15, Except.ok []⟩]

/-- An event whose metadata carries a URL outside the allow-list. -/
def evBadUrl : EventInput :=
  ⟨[171], "owner0", "op0", Except.ok "http://cp.example",
    Except.ok ⟨some "https://example.com/other.eif", none, none⟩⟩

/-! ### Helper lemmas about a single write site -/

lemma recordWrite_poolFail (m : String) (r : FailureRecord) (d : DbSlot)
    (h : d.poolOk = false) : recordWrite m r d = ⟨[], [], [m]⟩ := by
  unfold recordWrite
  simp [h]

lemma recordWrite_okok (m : String) (r : FailureRecord) :
    recordWrite m r ⟨true, Except.ok ()⟩ = ⟨[r], [r], [m]⟩ := by
  unfold recordWrite
  simp

lemma recordWrite_persisted_le (m : String) (r : FailureRecord) (d : DbSlot) :
    (recordWrite m r d).persisted.length ≤ 1 ∧
      ∀ x ∈ (recordWrite m r d).persisted, x = r := by
  unfold recordWrite
  cases hp : d.poolOk <;> rcases hi : d.insertResult with e | u <;> simp [hp, hi]

lemma recordWrite_attempts_le (m : String) (r : FailureRecord) (d : DbSlot) :
    (recordWrite m r d).attempts.length ≤ 1 ∧
      ∀ x ∈ (recordWrite m r d).attempts, x = r := by
  unfold recordWrite
  cases hp : d.poolOk <;> simp [hp]

lemma countP_kind_zero (l : List FailureRecord) (k : FailureKind) (r : FailureRecord)
    (hl : ∀ x ∈ l, x = r) (h : r.kind ≠ k) :
    l.countP (fun x => x.kind == k) = 0 := by
  rw [List.countP_eq_zero]
  intro a ha
  rw [hl a ha]
  simpa using h


lemma writeOpt_le (w : WriteEffect) (r : FailureRecord)
    (h : w = noWrite ∨ ∃ m d, w = recordWrite m r d) :
    w.persisted.length ≤ 1 ∧ w.attempts.length ≤ 1 ∧
      (∀ x ∈ w.persisted, x = r) ∧ (∀ x ∈ w.attempts, x = r) := by
  rcases h with h | ⟨m, d, h⟩
  · simp [h, noWrite]
  · subst h
    exact ⟨(recordWrite_persisted_le m r d).1, (recordWrite_attempts_le m r d).1,
      (recordWrite_persisted_le m r d).2, (recordWrite_attempts_le m r d).2⟩

/-- On resolution success the first write site yields either nothing or the
probe-failure record, and the second site either nothing or one cross-check
failure record; so both output lists split into a reachability part and an
endpoint part of length at most one each. On resolution failure only the
reachability part is populated. -/
lemma runWorker_split (t : VTask) (inp : WorkerInput) :
    ∃ p1 p2 a1 a2 : List FailureRecord,
      (runWorker t inp).persisted = p1 ++ p2 ∧
      (runWorker t inp).attempts = a1 ++ a2 ∧
      p1.length ≤ 1 ∧ p2.length ≤ 1 ∧ a1.length ≤ 1 ∧ a2.length ≤ 1 ∧
      (∀ r ∈ p1, r.kind = FailureKind.reachability) ∧
      (∀ r ∈ a1, r.kind = FailureKind.reachability) ∧
      (∀ r ∈ p2, r.kind = FailureKind.endpoint) ∧
      (∀ r ∈ a2, r.kind = FailureKind.endpoint) := by
  rcases hr : inp.resolveResult with e | ip
  · have hw := writeOpt_le
      (recordWrite ("Failed to get IP address: " ++ e)
        ⟨FailureKind.reachability, t.job, t.operator, "N/A",
          "Failed to get IP address: " ++ e, inp.nowTs⟩ inp.db1)
      ⟨FailureKind.reachability, t.job, t.operator, "N/A",
        "Failed to get IP address: " ++ e, inp.nowTs⟩ (Or.inr ⟨_, _, rfl⟩)
    refine ⟨_, [], _, [], ?_, ?_, hw.1, by simp, hw.2.1, by simp, ?_, ?_, by simp, by simp⟩
    · simp only [runWorker, hr, List.append_nil]
    · simp only [runWorker, hr, List.append_nil]
    · intro r hmem
      rw [hw.2.2.1 r hmem]
    · intro r hmem
      rw [hw.2.2.2 r hmem]
  · have hw1 := writeOpt_le
      (if inp.probeOk then noWrite
       else recordWrite "Instance reachability test failed"
        ⟨FailureKind.reachability, t.job, t.operator, ip,
          "Instance reachability test failed", inp.nowTs⟩ inp.db1)
      ⟨FailureKind.reachability, t.job, t.operator, ip,
        "Instance reachability test failed", inp.nowTs⟩
      (by cases hb : inp.probeOk
          · exact Or.inr ⟨"Instance reachability test failed", inp.db1, by simp⟩
          · exact Or.inl (by simp))
    rcases hf : inp.refresh with e2 | e2 | j
    · have hw2 := writeOpt_le
        (recordWrite ("Failed to call refresh API: " ++ e2)
          ⟨FailureKind.endpoint, t.job, t.operator, ip,
            "Failed to call refresh API: " ++ e2, inp.nowTs⟩ inp.db2)
        ⟨FailureKind.endpoint, t.job, t.operator, ip,
          "Failed to call refresh API: " ++ e2, inp.nowTs⟩ (Or.inr ⟨_, _, rfl⟩)
      refine ⟨_, _, _, _, ?_, ?_, hw1.1, hw2.1, hw1.2.1, hw2.2.1, ?_, ?_, ?_, ?_⟩
      · simp only [runWorker, hr, hf]
      · simp only [runWorker, hr, hf]
      · intro r hmem
        rw [hw1.2.2.1 r hmem]
      · intro r hmem
        rw [hw1.2.2.2 r hmem]
      · intro r hmem
        rw [hw2.2.2.1 r hmem]
      · intro r hmem
        rw [hw2.2.2.2 r hmem]
    · have hw2 := writeOpt_le
        (recordWrite ("Failed to parse refresh API response: " ++ e2)
          ⟨FailureKind.endpoint, t.job, t.operator, ip,
            "Failed to parse refresh API response: " ++ e2, inp.nowTs⟩ inp.db2)
        ⟨FailureKind.endpoint, t.job, t.operator, ip,
          "Failed to parse refresh API response: " ++ e2, inp.nowTs⟩ (Or.inr ⟨_, _, rfl⟩)
      refine ⟨_, _, _, _, ?_, ?_, hw1.1, hw2.1, hw1.2.1, hw2.2.1, ?_, ?_, ?_, ?_⟩
      · simp only [runWorker, hr, hf]
      · simp only [runWorker, hr, hf]
      · intro r hmem
        rw [hw1.2.2.1 r hmem]
      · intro r hmem
        rw [hw1.2.2.2 r hmem]
      · intro r hmem
        rw [hw2.2.2.1 r hmem]
      · intro r hmem
        rw [hw2.2.2.2 r hmem]
    · have hw2 := writeOpt_le
        (if (j.get "ip").isSome then noWrite
         else recordWrite "IP key NOT found in refresh API response"
          ⟨FailureKind.endpoint, t.job, t.operator, ip,
            "IP key NOT found in refresh API response", inp.nowTs⟩ inp.db2)
        ⟨FailureKind.endpoint, t.job, t.operator, ip,
          "IP key NOT found in refresh API response", inp.nowTs⟩
        (by cases hb : (j.get "ip").isSome
            · exact Or.inr ⟨"IP key NOT found in refresh API response", inp.db2, by simp [hb]⟩
            · exact Or.inl (by simp [hb]))
      refine ⟨_, _, _, _, ?_, ?_, hw1.1, hw2.1, hw1.2.1, hw2.2.1, ?_, ?_, ?_, ?_⟩
      · simp only [runWorker, hr, hf]
      · simp only [runWorker, hr, hf]
      · intro r hmem
        rw [hw1.2.2.1 r hmem]
      · intro r hmem
        rw [hw1.2.2.2 r hmem]
      · intro r hmem
        rw [hw2.2.2.1 r hmem]
      · intro r hmem
        rw [hw2.2.2.2 r hmem]

lemma countP_kind_eq_zero (l : List FailureRecord) (k k' : FailureKind)
    (h : ∀ x ∈ l, x.kind = k') (hne : k' ≠ k) :
    l.countP (fun x => x.kind == k) = 0 := by
  rw [List.countP_eq_zero]
  intro a ha
  rw [h a ha]
  simpa using hne

/-- Claim C7: in one worker run, each failing stage writes at most once:
at most one reachability record, at most one endpoint record, hence at
most two records in total — both for attempted inserts and for actually
persisted rows. In particular two ReachabilityFailures (e.g. one from a
resolution failure and one from a probe failure) can never coexist. -/
theorem claim_C7 (t : VTask) (inp : WorkerInput) :
    (runWorker t inp).attempts.countP (fun r => r.kind == FailureKind.reachability) ≤ 1 ∧
    (runWorker t inp).attempts.countP (fun r => r.kind == FailureKind.endpoint) ≤ 1 ∧
    (runWorker t inp).attempts.length ≤ 2 ∧
    (runWorker t inp).persisted.countP (fun r => r.kind == FailureKind.reachability) ≤ 1 ∧
    (runWorker t inp).persisted.countP (fun r => r.kind == FailureKind.endpoint) ≤ 1 ∧
    (runWorker t inp).persisted.length ≤ 2 := by
  obtain ⟨p1, p2, a1, a2, hp, ha, l1, l2, l3, l4, k1, k2, k3, k4⟩ := runWorker_split t inp
  rw [hp, ha]
  simp only [List.countP_append, List.length_append]
  have z1 := countP_kind_eq_zero a2 FailureKind.reachability FailureKind.endpoint k4 (by decide)
  have z2 := countP_kind_eq_zero a1 FailureKind.endpoint FailureKind.reachability k2 (by decide)
  have z3 := countP_kind_eq_zero p2 FailureKind.reachability FailureKind.endpoint k3 (by decide)
  have z4 := countP_kind_eq_zero p1 FailureKind.endpoint FailureKind.reachability k1 (by decide)
  have b1 := List.countP_le_length (p := fun r : FailureRecord => r.kind == FailureKind.reachability) (l := a1)
  have b2 := List.countP_le_length (p := fun r : FailureRecord => r.kind == FailureKind.endpoint) (l := a2)
  have b3 := List.countP_le_length (p := fun r : FailureRecord => r.kind == FailureKind.reachability) (l := p1)
  have b4 := List.countP_le_length (p := fun r : FailureRecord => r.kind == FailureKind.endpoint) (l := p2)
  omega

/-- Claim C3, counterexample: a worker whose address resolution fails and
whose database write succeeds persists exactly one record, and that
record's address field is the sentinel `"N/A"` (from `main.rs` line 169),
not `"unknown"` as the claim states. -/
theorem claim_C3_counterexample :
    (runWorker taskEx inpResolveFail).persisted.map FailureRecord.ip = ["N/A"] ∧
    "N/A" ≠ "unknown" := by
  constructor
  · rfl
  · decide

/-- Claim C3 (amended: the sentinel string is `"N/A"`, not `"unknown"`):
a worker whose address resolution fails, and whose database write
succeeds, persists exactly one ReachabilityFailure record whose address
field is `"N/A"`, persists no EndpointFailure record, and performs
neither the reachability probe nor the cross-check. -/
theorem claim_C3_amended (t : VTask) (inp : WorkerInput) (e : String)
    (hres : inp.resolveResult = Except.error e)
    (hdb : inp.db1 = ⟨true, Except.ok ()⟩) :
    (runWorker t inp).persisted =
      [⟨FailureKind.reachability, t.job, t.operator, "N/A",
        "Failed to get IP address: " ++ e, inp.nowTs⟩] ∧
    (runWorker t inp).persisted.countP (fun r => r.kind == FailureKind.endpoint) = 0 ∧
    (runWorker t inp).probed = false ∧
    (runWorker t inp).crossChecked = false := by
  simp only [runWorker, hres, hdb, recordWrite_okok]
  refine ⟨by trivial, ?_, by trivial, by trivial⟩
  simp [List.countP_cons]

/-- Witness for claim C3 at a concrete failing-resolution input. -/
theorem claim_C3_witness :
    (runWorker taskEx inpResolveFail).persisted =
      [⟨FailureKind.reachability, taskEx.job, taskEx.operator, "N/A",
        "Failed to get IP address: " ++ "timeout", inpResolveFail.nowTs⟩] ∧
    (runWorker taskEx inpResolveFail).persisted.countP
      (fun r => r.kind == FailureKind.endpoint) = 0 ∧
    (runWorker taskEx inpResolveFail).probed = false ∧
    (runWorker taskEx inpResolveFail).crossChecked = false :=
  claim_C3_amended taskEx inpResolveFail "timeout" rfl rfl

/-- Claim C4: a worker whose address resolves but whose probe fails and
whose cross-check also fails persists exactly one ReachabilityFailure,
carrying the resolved address, and exactly one EndpointFailure, also
carrying the resolved address; the probe failure does not skip the
cross-check stage. -/
theorem claim_C4 (t : VTask) (inp : WorkerInput) (ip : String)
    (hres : inp.resolveResult = Except.ok ip)
    (hprobe : inp.probeOk = false)
    (hcc : crossCheckFails inp.refresh = true)
    (hdb1 : inp.db1 = ⟨true, Except.ok ()⟩)
    (hdb2 : inp.db2 = ⟨true, Except.ok ()⟩) :
    (runWorker t inp).persisted.filter (fun r => r.kind == FailureKind.reachability) =
      [⟨FailureKind.reachability, t.job, t.operator, ip,
        "Instance reachability test failed", inp.nowTs⟩] ∧
    (runWorker t inp).persisted.countP (fun r => r.kind == FailureKind.endpoint) = 1 ∧
    (runWorker t inp).persisted.length = 2 ∧
    (runWorker t inp).persisted.all (fun r => r.ip == ip) = true ∧
    (runWorker t inp).crossChecked = true := by
  rcases hf : inp.refresh with e | e | j
  · simp [runWorker, hres, hprobe, hf, hdb1, hdb2, recordWrite_okok]
  · simp [runWorker, hres, hprobe, hf, hdb1, hdb2, recordWrite_okok]
  · have hj : (j.get "ip").isSome = false := by
      have h2 := hcc
      rw [hf] at h2
      simpa [crossCheckFails] using h2
    simp [runWorker, hres, hprobe, hf, hj, hdb1, hdb2, recordWrite_okok]

/-- Witness for claim C4 at a concrete input: probe fails on `"3.4.5.6"`
and the cross-check response is the empty JSON object. -/
theorem claim_C4_witness :
    (runWorker taskEx inpProbeCCFail).persisted.filter
      (fun r => r.kind == FailureKind.reachability) =
      [⟨FailureKind.reachability, taskEx.job, taskEx.operator, "3.4.5.6",
        "Instance reachability test failed", inpProbeCCFail.nowTs⟩] ∧
    (runWorker taskEx inpProbeCCFail).persisted.countP
      (fun r => r.kind == FailureKind.endpoint) = 1 ∧
    (runWorker taskEx inpProbeCCFail).persisted.length = 2 ∧
    (runWorker taskEx inpProbeCCFail).persisted.all (fun r => r.ip == "3.4.5.6") = true ∧
    (runWorker taskEx inpProbeCCFail).crossChecked = true :=
  claim_C4 taskEx inpProbeCCFail "3.4.5.6" rfl rfl rfl rfl rfl

/-- Claim C8: whenever the cross-check response parses as JSON and merely
contains an `"ip"` key — the bound value being arbitrary, so in particular
`null`, an empty string, or an address different from the resolved one —
the cross-check passes: no EndpointFailure insert is even attempted. The
value is never compared to the resolved address (`main.rs` line 218 only
tests `json.get("ip").is_some()`). -/
theorem claim_C8 (t : VTask) (inp : WorkerInput) (ip : String) (j : Json)
    (hres : inp.resolveResult = Except.ok ip)
    (hrefresh : inp.refresh = RefreshResult.parsed j)
    (hip : (j.get "ip").isSome = true) :
    (runWorker t inp).persisted.countP (fun r => r.kind == FailureKind.endpoint) = 0 ∧
    (runWorker t inp).attempts.countP (fun r => r.kind == FailureKind.endpoint) = 0 ∧
    (runWorker t inp).crossChecked = true := by
  cases hb : inp.probeOk
  · have hpl := recordWrite_persisted_le "Instance reachability test failed"
      ⟨FailureKind.reachability, t.job, t.operator, ip,
        "Instance reachability test failed", inp.nowTs⟩ inp.db1
    have hal := recordWrite_attempts_le "Instance reachability test failed"
      ⟨FailureKind.reachability, t.job, t.operator, ip,
        "Instance reachability test failed", inp.nowTs⟩ inp.db1
    simp only [runWorker, hres, hrefresh, hb, hip, if_true, Bool.false_eq_true, if_false,
      noWrite, List.append_nil]
    refine ⟨?_, ?_, by trivial⟩
    · refine countP_kind_eq_zero _ _ FailureKind.reachability ?_ (by decide)
      intro x hx
      rw [hpl.2 x hx]
    · refine countP_kind_eq_zero _ _ FailureKind.reachability ?_ (by decide)
      intro x hx
      rw [hal.2 x hx]
  · simp [runWorker, hres, hrefresh, hb, hip, noWrite]

/-- Witness for claim C8: resolved address `"3.4.5.6"`, response
`{"ip": null}` — the `"ip"` value is `null`, yet no endpoint record is
attempted. -/
theorem claim_C8_witness :
    (runWorker taskEx inpCrossNullIp).persisted.countP
      (fun r => r.kind == FailureKind.endpoint) = 0 ∧
    (runWorker taskEx inpCrossNullIp).attempts.countP
      (fun r => r.kind == FailureKind.endpoint) = 0 ∧
    (runWorker taskEx inpCrossNullIp).crossChecked = true :=
  claim_C8 taskEx inpCrossNullIp "3.4.5.6" jsonIpNull rfl rfl rfl

lemma kind_beq_er : (FailureKind.endpoint == FailureKind.reachability) = false := rfl

lemma kind_beq_re : (FailureKind.reachability == FailureKind.endpoint) = false := rfl

lemma kind_beq_rr : (FailureKind.reachability == FailureKind.reachability) = true := rfl

lemma kind_beq_ee : (FailureKind.endpoint == FailureKind.endpoint) = true := rfl

/-- Claim C9: when acquiring a pool connection fails at a failing stage's
write site, the record is silently dropped: no insert is attempted for
that stage (and so nothing is persisted for it), the log lines are exactly
those of a run whose write succeeded (so the acquisition failure itself is
never logged), and the rest of the run — the other stage's records and the
control flow — is unchanged; database errors never propagate out of the
worker, whose probe/cross-check behavior is independent of both slots. -/
theorem claim_C9 (t : VTask) (inp : WorkerInput) :
    (inp.db1.poolOk = false →
      (runWorker t inp).attempts.countP (fun r => r.kind == FailureKind.reachability) = 0 ∧
      (runWorker t inp).persisted.countP (fun r => r.kind == FailureKind.reachability) = 0 ∧
      (runWorker t inp).logs = (runWorker t (setDb1Ok inp)).logs ∧
      (runWorker t inp).attempts =
        (runWorker t (setDb1Ok inp)).attempts.filter
          (fun r => !(r.kind == FailureKind.reachability)) ∧
      (runWorker t inp).persisted =
        (runWorker t (setDb1Ok inp)).persisted.filter
          (fun r => !(r.kind == FailureKind.reachability))) ∧
    (inp.db2.poolOk = false →
      (runWorker t inp).attempts.countP (fun r => r.kind == FailureKind.endpoint) = 0 ∧
      (runWorker t inp).persisted.countP (fun r => r.kind == FailureKind.endpoint) = 0 ∧
      (runWorker t inp).logs = (runWorker t (setDb2Ok inp)).logs ∧
      (runWorker t inp).attempts =
        (runWorker t (setDb2Ok inp)).attempts.filter
          (fun r => !(r.kind == FailureKind.endpoint)) ∧
      (runWorker t inp).persisted =
        (runWorker t (setDb2Ok inp)).persisted.filter
          (fun r => !(r.kind == FailureKind.endpoint))) ∧
    (runWorker t inp).probed = (runWorker t (setDb1Ok (setDb2Ok inp))).probed ∧
    (runWorker t inp).crossChecked = (runWorker t (setDb1Ok (setDb2Ok inp))).crossChecked := by
  obtain ⟨res, pr, rf, ⟨pk1, ir1⟩, ⟨pk2, ir2⟩, ts⟩ := inp
  refine ⟨fun h1 => ?_, fun h2 => ?_, ?_, ?_⟩
  · simp only [DbSlot.poolOk] at h1
    subst h1
    rcases res with e | ip
    · rcases ir1 with e1 | u1 <;>
        simp +decide [runWorker, setDb1Ok, recordWrite, noWrite, List.countP_cons, List.filter, kind_beq_er, kind_beq_re, kind_beq_rr, kind_beq_ee]
    · rcases rf with e2 | e2 | j
      · cases pr <;> cases pk2 <;> rcases ir1 with e1 | u1 <;> rcases ir2 with e3 | u3 <;>
          simp +decide [runWorker, setDb1Ok, recordWrite, noWrite, List.countP_cons, List.filter, kind_beq_er, kind_beq_re, kind_beq_rr, kind_beq_ee]
      · cases pr <;> cases pk2 <;> rcases ir1 with e1 | u1 <;> rcases ir2 with e3 | u3 <;>
          simp +decide [runWorker, setDb1Ok, recordWrite, noWrite, List.countP_cons, List.filter, kind_beq_er, kind_beq_re, kind_beq_rr, kind_beq_ee]
      · cases hj : (j.get "ip").isSome <;> cases pr <;> cases pk2 <;>
          rcases ir1 with e1 | u1 <;> rcases ir2 with e3 | u3 <;>
          simp +decide [runWorker, setDb1Ok, recordWrite, noWrite, List.countP_cons,
            List.filter, hj, kind_beq_er, kind_beq_re, kind_beq_rr, kind_beq_ee]
  · simp only [DbSlot.poolOk] at h2
    subst h2
    rcases res with e | ip
    · cases pk1 <;> rcases ir1 with e1 | u1 <;>
        simp +decide [runWorker, setDb2Ok, recordWrite, noWrite, List.countP_cons, List.filter, kind_beq_er, kind_beq_re, kind_beq_rr, kind_beq_ee]
    · rcases rf with e2 | e2 | j
      · cases pr <;> cases pk1 <;> rcases ir1 with e1 | u1 <;> rcases ir2 with e3 | u3 <;>
          simp +decide [runWorker, setDb2Ok, recordWrite, noWrite, List.countP_cons, List.filter, kind_beq_er, kind_beq_re, kind_beq_rr, kind_beq_ee]
      · cases pr <;> cases pk1 <;> rcases ir1 with e1 | u1 <;> rcases ir2 with e3 | u3 <;>
          simp +decide [runWorker, setDb2Ok, recordWrite, noWrite, List.countP_cons, List.filter, kind_beq_er, kind_beq_re, kind_beq_rr, kind_beq_ee]
      · cases hj : (j.get "ip").isSome <;> cases pr <;> cases pk1 <;>
          rcases ir1 with e1 | u1 <;> rcases ir2 with e3 | u3 <;>
          simp +decide [runWorker, setDb2Ok, recordWrite, noWrite, List.countP_cons,
            List.filter, hj, kind_beq_er, kind_beq_re, kind_beq_rr, kind_beq_ee]
  · rcases res with e | ip <;> simp [runWorker, setDb1Ok, setDb2Ok]
  · rcases res with e | ip <;> simp [runWorker, setDb1Ok, setDb2Ok]

/-- Witness for claim C9 at a concrete input where both pool acquisitions
fail: no insert is attempted at either stage. -/
theorem claim_C9_witness :
    (runWorker taskEx inpPoolFail).attempts.countP
      (fun r => r.kind == FailureKind.reachability) = 0 ∧
    (runWorker taskEx inpPoolFail).attempts.countP
      (fun r => r.kind == FailureKind.endpoint) = 0 ∧
    (runWorker taskEx inpPoolFail).logs =
      (runWorker taskEx (setDb1Ok inpPoolFail)).logs :=
  ⟨((claim_C9 taskEx inpPoolFail).1 rfl).1,
   ((claim_C9 taskEx inpPoolFail).2.1 rfl).1,
   ((claim_C9 taskEx inpPoolFail).1 rfl).2.2.1⟩

/-- Claim C5: an event whose metadata fails to parse, has no `url`, or has
a `url` outside the fixed allow-list is not dispatched — no verification
worker is spawned — and consequently no FailureRecord is ever persisted on
its behalf, whatever the worker oracles would have answered. -/
theorem claim_C5 (e : EventInput) (inp : WorkerInput)
    (hmd : (∃ err, e.metadataParse = Except.error err) ∨
      (∃ m, e.metadataParse = Except.ok m ∧
        (m.url = none ∨ ∃ u, m.url = some u ∧ allowed_urls.contains u = false))) :
    processEvent e = none ∧ eventRecords e inp = [] := by
  have hnone : processEvent e = none := by
    rcases hmd with ⟨err, hp⟩ | ⟨m, hp, hm⟩
    · rcases hc : e.providersResult with e1 | cp <;> simp [processEvent, hc, hp]
    · rcases hc : e.providersResult with e1 | cp
      · simp [processEvent, hc]
      · rcases hm with hm | ⟨u, hu, hmem⟩
        · simp [processEvent, hc, hp, hm]
        · simp only [processEvent, hc, hp, hu]
          simp only [if_neg (by simpa using hmem : ¬ allowed_urls.contains u = true)]
  exact ⟨hnone, by simp [eventRecords, hnone]⟩

/-- Witness for claim C5 at a concrete event whose metadata URL is outside
the allow-list. -/
theorem claim_C5_witness :
    processEvent evBadUrl = none ∧ eventRecords evBadUrl inpResolveFail = [] :=
  claim_C5 evBadUrl inpResolveFail
    (Or.inr ⟨⟨some "https://example.com/other.eif", none, none⟩, rfl,
      Or.inr ⟨"https://example.com/other.eif", rfl, by decide⟩⟩)

/-- Claim C10: for any clock reading at or after the UNIX epoch (and
within the `i64` range every real system clock satisfies), both record
constructors return the current time in whole epoch seconds as the
timestamp; for a clock before the epoch, the `.expect` panics and no
record is returned. -/
theorem claim_C10 (job op ip err : String) (clockNs : Int) :
    (0 ≤ clockNs → clockNs < 2 ^ 63 * 1000000000 →
      NewReachabilityError.new job op ip err clockNs =
        some ⟨job, op, ip, err, clockNs / 1000000000⟩ ∧
      NewOperatorEndpointError.new job op ip err clockNs =
        some ⟨job, op, ip, err, clockNs / 1000000000⟩) ∧
    (clockNs < 0 →
      NewReachabilityError.new job op ip err clockNs = none ∧
      NewOperatorEndpointError.new job op ip err clockNs = none) := by
  constructor
  · intro hpos hlt
    have hd : durationSinceEpochNs clockNs = some clockNs.toNat := by
      simp [durationSinceEpochNs, hpos]
    have hsec : clockNs.toNat / 1000000000 < 2 ^ 63 := by
      have h1 : clockNs.toNat < 2 ^ 63 * 1000000000 := by omega
      omega
    have hcast : u64ToI64 (clockNs.toNat / 1000000000) = clockNs / 1000000000 := by
      rw [u64ToI64, if_pos hsec]
      have : ((clockNs.toNat / 1000000000 : Nat) : Int) =
          (clockNs.toNat : Int) / (1000000000 : Nat) := Int.ofNat_div _ _
      rw [this, Int.toNat_of_nonneg hpos]
      norm_num
    constructor
    · simp [NewReachabilityError.new, hd, hcast]
    · simp [NewOperatorEndpointError.new, hd, hcast]
  · intro hneg
    have hd : durationSinceEpochNs clockNs = none := by
      simp [durationSinceEpochNs]
      omega
    constructor
    · rw [NewReachabilityError.new, hd]
      rfl
    · rw [NewOperatorEndpointError.new, hd]
      rfl

/-- Witness for claim C10 at the concrete clock reading 1.7e18 ns
(epoch second 1700000000). -/
theorem claim_C10_witness :
    NewReachabilityError.new "j" "o" "i" "e" 1700000000000000000 =
      some ⟨"j", "o", "i", "e", 1700000000⟩ ∧
    NewOperatorEndpointError.new "j" "o" "i" "e" 1700000000000000000 =
      some ⟨"j", "o", "i", "e", 1700000000⟩ :=
  (claim_C10 "j" "o" "i" "e" 1700000000000000000).1 (by norm_num) (by norm_num)

lemma pollerTick_watermark_mono (w : Nat) (t : TickInput) :
    w ≤ (pollerTick w t).watermark := by
  rcases hh : t.headResult with e | h
  · simp [pollerTick, hh]
  · by_cases hle : h ≤ w
    · simp [pollerTick, hh, hle]
    · rcases he : t.eventsResult with e2 | evs <;> simp [pollerTick, hh, hle, he] <;> omega

/-- Claim C6: across every execution of the poller loop the watermark is
monotonically non-decreasing, and whenever a tick changes it, the tick's
head query succeeded with a head strictly above the old watermark, the
event query for `[watermark+1, head]` succeeded, every in-scope event of
that range was dispatched (dispatch, not completion), and the new
watermark is that head. -/
theorem claim_C6 :
    (∀ (w : Nat) (t : TickInput),
      w ≤ (pollerTick w t).watermark ∧
      ((pollerTick w t).watermark ≠ w →
        t.headResult = Except.ok ((pollerTick w t).watermark) ∧
        w < (pollerTick w t).watermark ∧
        (t.eventsResult.toOption.map fun evs => evs.filterMap processEvent) =
          some ((pollerTick w t).dispatched) ∧
        (pollerTick w t).queried = some (w + 1, (pollerTick w t).watermark))) ∧
    (∀ (w : Nat) (ts : List TickInput),
      List.Chain' (· ≤ ·) (w :: (pollerTrace w ts).map TickOutput.watermark)) := by
  constructor
  · intro w t
    refine ⟨pollerTick_watermark_mono w t, fun hne => ?_⟩
    rcases hh : t.headResult with e | h
    · exact absurd (by simp [pollerTick, hh]) hne
    · by_cases hle : h ≤ w
      · exact absurd (by simp [pollerTick, hh, hle]) hne
      · rcases he : t.eventsResult with e2 | evs
        · exact absurd (by simp [pollerTick, hh, hle, he]) hne
        · refine ⟨?_, ?_, ?_, ?_⟩ <;> simp [pollerTick, hh, hle, he, Except.toOption] <;> omega
  · intro w ts
    induction ts generalizing w with
    | nil => simp [pollerTrace]
    | cons t ts ih =>
      rw [pollerTrace, List.map_cons, List.chain'_cons]
      exact ⟨pollerTick_watermark_mono w t, ih (pollerTick w t).watermark⟩

/-- Witness for claim C6 at watermark 5 and a clean tick with head 7: the
watermark advances, and the advance satisfies all the stated conditions. -/
theorem claim_C6_witness :
    tickOkEmpty7.headResult = Except.ok ((pollerTick 5 tickOkEmpty7).watermark) ∧
    5 < (pollerTick 5 tickOkEmpty7).watermark ∧
    (tickOkEmpty7.eventsResult.toOption.map fun evs => evs.filterMap processEvent) =
      some ((pollerTick 5 tickOkEmpty7).dispatched) ∧
    (pollerTick 5 tickOkEmpty7).queried = some (5 + 1, (pollerTick 5 tickOkEmpty7).watermark) :=
  (claim_C6.1 5 tickOkEmpty7).2 (by decide)

/-- Claim C2, counterexample: the per-event `providers(operator)` lookup is
an RPC call made mid-tick; at watermark 5, a tick with head 10 whose only
failure is that lookup still advances the watermark to 10 and dispatches
nothing, so the event in `[6, 10]` is dropped rather than re-delivered —
the claim's "watermark is left unchanged" does not hold for this RPC
failure. -/
theorem claim_C2_counterexample :
    evProvFail.providersResult = Except.error "rpc down" ∧
    (pollerTick 5 tickProvFail).watermark = 10 ∧
    (10 : Nat) ≠ 5 ∧
    (pollerTick 5 tickProvFail).dispatched = [] :=
  ⟨rfl, rfl, by decide, rfl⟩

/-- Claim C2 (amended: restricted to the head-height query and the
event-range query, per `main.rs` lines 53-59 and 73-85 — a failure of the
per-event provider lookup instead skips just that event while the
watermark still advances): a tick in which the head query or the event
query fails leaves the watermark unchanged, queries no range and
dispatches nothing, and a subsequent successful tick queries the range
starting at the same `watermark+1`, re-delivering the range's events. -/
theorem claim_C2_amended (w : Nat) (t t' : TickInput) (h' : Nat) (evs : List EventInput)
    (hfail : (∃ e, t.headResult = Except.error e) ∨ (∃ e, t.eventsResult = Except.error e))
    (ht' : t'.headResult = Except.ok h') (hev : t'.eventsResult = Except.ok evs)
    (hgt : w < h') :
    (pollerTick w t).watermark = w ∧
    (pollerTick w t).queried = none ∧
    (pollerTick w t).dispatched = [] ∧
    (pollerTick (pollerTick w t).watermark t').queried = some (w + 1, h') ∧
    (pollerTick (pollerTick w t).watermark t').dispatched = evs.filterMap processEvent := by
  have hstay : pollerTick w t = ⟨w, none, []⟩ := by
    rcases hfail with ⟨e, hh⟩ | ⟨e, he⟩
    · simp [pollerTick, hh]
    · rcases hh : t.headResult with e1 | h
      · simp [pollerTick, hh]
      · by_cases hle : h ≤ w <;> simp [pollerTick, hh, hle, he]
  rw [hstay]
  have hle' : ¬ h' ≤ w := by omega
  refine ⟨rfl, rfl, rfl, ?_, ?_⟩ <;> simp [pollerTick, ht', hev, hle']

/-- Witness for claim C2 at watermark 5: a tick whose head query fails,
followed by a clean tick at head 7. -/
theorem claim_C2_witness :
    (pollerTick 5 tickHeadErr).watermark = 5 ∧
    (pollerTick 5 tickHeadErr).queried = none ∧
    (pollerTick 5 tickHeadErr).dispatched = [] ∧
    (pollerTick (pollerTick 5 tickHeadErr).watermark tickOkEmpty7).queried = some (5 + 1, 7) ∧
    (pollerTick (pollerTick 5 tickHeadErr).watermark tickOkEmpty7).dispatched =
      List.filterMap processEvent [] :=
  claim_C2_amended 5 tickHeadErr tickOkEmpty7 7 [] (Or.inl ⟨"rpc down", rfl⟩) rfl rfl
    (by decide)

lemma chainOk_final_ge (w : Nat) (ts : List TickInput) (h : ChainOk w ts) :
    w ≤ finalWatermark w ts := by
  induction h with
  | nil w => simp [finalWatermark]
  | cons w h t ts evs hh hw he rest ih =>
    by_cases hle : h ≤ w
    · have heq : (pollerTick w t).watermark = w := by simp [pollerTick, hh, hle]
      have hwe : h = w := Nat.le_antisymm hle hw
      rw [finalWatermark, heq]
      rw [hwe] at ih
      exact ih
    · have heq : (pollerTick w t).watermark = h := by simp [pollerTick, hh, hle, he]
      rw [finalWatermark, heq]
      exact Nat.le_trans hw ih

lemma chainOk_watermarks (w : Nat) (ts : List TickInput) (h : ChainOk w ts) :
    WatermarksMatchHeads w ts := by
  induction h with
  | nil w => exact trivial
  | cons w h t ts evs hh hw he rest ih =>
    by_cases hle : h ≤ w
    · have heq : (pollerTick w t).watermark = w := by simp [pollerTick, hh, hle]
      have hwe : h = w := Nat.le_antisymm hle hw
      refine ⟨?_, ?_⟩
      · rw [heq, headD, hh, hwe]
      · rw [heq, ← hwe]
        exact ih
    · have heq : (pollerTick w t).watermark = h := by simp [pollerTick, hh, hle, he]
      refine ⟨?_, ?_⟩
      · rw [heq, headD, hh]
      · rw [heq]
        exact ih

lemma chainOk_ranges (w : Nat) (ts : List TickInput) (h : ChainOk w ts) :
    RangesAreConsecutive w ts := by
  induction h with
  | nil w => exact trivial
  | cons w h t ts evs hh hw he rest ih =>
    by_cases hle : h ≤ w
    · have heq : (pollerTick w t).watermark = w := by simp [pollerTick, hh, hle]
      have hwe : h = w := Nat.le_antisymm hle hw
      refine ⟨?_, ?_⟩
      · have : headD t 0 = h := by rw [headD, hh]
        rw [this, if_pos hle]
        simp [pollerTick, hh, hle]
      · rw [heq, ← hwe]
        exact ih
    · have heq : (pollerTick w t).watermark = h := by simp [pollerTick, hh, hle, he]
      refine ⟨?_, ?_⟩
      · have : headD t 0 = h := by rw [headD, hh]
        rw [this, if_neg hle]
        simp [pollerTick, hh, hle, he]
      · rw [heq]
        exact ih

lemma chainOk_coverage (w : Nat) (ts : List TickInput) (h : ChainOk w ts) (b : Nat) :
    (queriedRanges w ts).countP (fun r => decide (r.1 ≤ b ∧ b ≤ r.2)) =
      if w < b ∧ b ≤ finalWatermark w ts then 1 else 0 := by
  induction h with
  | nil w =>
    rw [queriedRanges, finalWatermark, List.countP_nil, if_neg]
    omega
  | cons w h t ts evs hh hw he rest ih =>
    by_cases hle : h ≤ w
    · have heq : pollerTick w t = ⟨w, none, []⟩ := by simp [pollerTick, hh, hle]
      have hwe : h = w := Nat.le_antisymm hle hw
      rw [queriedRanges, finalWatermark, heq]
      subst hwe
      simpa using ih
    · have heq : pollerTick w t = ⟨h, some (w + 1, h), evs.filterMap processEvent⟩ := by
        simp [pollerTick, hh, hle, he]
      have hfin : h ≤ finalWatermark h ts := chainOk_final_ge h ts rest
      rw [queriedRanges, finalWatermark, heq]
      simp only [List.singleton_append, List.countP_cons, ih]
      simp only [decide_eq_true_eq]
      split_ifs <;> omega

/-- Claim C1: over any sequence of ticks in which every RPC call succeeds
and the observed chain head (starting from the startup head that seeds the
watermark) is non-decreasing, each tick that sees a new head queries
exactly `[watermark+1, head]`, the watermark after each tick equals the
head observed at it, and every block of `[initialWatermark+1, finalHead]`
lies in exactly one queried range — no gaps, no overlaps. -/
theorem claim_C1 (w : Nat) (ts : List TickInput) (h : ChainOk w ts) :
    WatermarksMatchHeads w ts ∧
    RangesAreConsecutive w ts ∧
    ∀ b, (queriedRanges w ts).countP (fun r => decide (r.1 ≤ b ∧ b ≤ r.2)) =
      if w < b ∧ b ≤ finalWatermark w ts then 1 else 0 :=
  ⟨chainOk_watermarks w ts h, chainOk_ranges w ts h, fun b => chainOk_coverage w ts h b⟩

/-- Witness for claim C1 on the concrete clean run with initial watermark
10 and heads 12 then 15: block 13 is covered by exactly one queried range. -/
theorem claim_C1_witness :
    ChainOk 10 ticksEx ∧
    WatermarksMatchHeads 10 ticksEx ∧
    (queriedRanges 10 ticksEx).countP (fun r => decide (r.1 ≤ 13 ∧ 13 ≤ r.2)) = 1 := by
  have hchain : ChainOk 10 ticksEx := by
    show ChainOk 10 [⟨Except.ok 12, Except.ok []⟩, ⟨Except.ok 15, Except.ok []⟩]
    refine ChainOk.cons 10 12 _ _ [] rfl (by omega) rfl ?_
    refine ChainOk.cons 12 15 _ _ [] rfl (by omega) rfl ?_
    exact ChainOk.nil 15
  have h := claim_C1 10 ticksEx hchain
  refine ⟨hchain, h.1, ?_⟩
  rw [h.2.2 13, if_pos (by decide)]
